import Mathlib

/-!
Shallow embedding of `create-replicate-snapshots.py`, a script that creates
snapshots of a list of EC2 volumes (tagging each snapshot with its source
volume's tags) and optionally copies the created snapshots to a destination
region (tagging each copy with its source snapshot's tags).

The EC2 client is modelled as a record of deterministic response oracles
(`Ec2Client`); each script function is embedded as a Lean function returning
its Python result (`Except PyExc _`, an exception or a value) together with
the sequence of observable events it performs (provider requests and printed
status lines), in order.
-/

namespace BotoSnapshots

/-- A TagSet: an ordered sequence of key/value string pairs. -/
abbrev Tags := List (String × String)

/-- Python exceptions the script distinguishes: `botocore` ClientError,
`botocore` WaiterError, and anything else. -/
inductive PyExc where
  | clientError (msg : String)
  | waiterError (msg : String)
  | other (msg : String)
deriving DecidableEq, Repr

/-- Decidable equality on `Except`, so that run results can be evaluated on
concrete inputs. -/
instance {ε : Type} {α : Type} [DecidableEq ε] [DecidableEq α] :
    DecidableEq (Except ε α)
  | Except.error e, Except.error f =>
    if h : e = f then isTrue (by subst h; rfl)
    else isFalse (fun hh => by cases hh; exact h rfl)
  | Except.error _, Except.ok _ => isFalse (fun hh => by cases hh)
  | Except.ok _, Except.error _ => isFalse (fun hh => by cases hh)
  | Except.ok a, Except.ok b =>
    if h : a = b then isTrue (by subst h; rfl)
    else isFalse (fun hh => by cases hh; exact h rfl)

/-- A boto3 EC2 client, modelled as deterministic response oracles for the
five API operations the script uses.  `describeVolumeTags volume` is the
`['Volumes'][0]['Tags']` projection of `describe_volumes`;
`createSnapshot volume tags` returns the response's HTTP status code and
`SnapshotId`; `waitSnapshot snapshot maxAttempts` is the
`snapshot_completed` waiter; `describeSnapshotTags snapshot` is the
`['Snapshots'][0]['Tags']` projection of `describe_snapshots`;
`copySnapshot snapshot sourceRegion destRegion tags` returns the new
`SnapshotId`.  Each may instead raise an exception. -/
structure Ec2Client where
  describeVolumeTags : String → Except PyExc Tags
  createSnapshot : String → Tags → Except PyExc (Nat × String)
  waitSnapshot : String → Nat → Except PyExc Unit
  describeSnapshotTags : String → Except PyExc Tags
  copySnapshot : String → String → String → Tags → Except PyExc String

/-- An observable event of a run: a provider request, or a printed status
line (`log`). -/
inductive Event where
  | describeVolumes (volume : String)
  | createSnapshot (volume : String) (tags : Tags)
  | wait (snapshot : String) (maxAttempts : Nat)
  | describeSnapshots (snapshot : String)
  | copySnapshot (snapshot : String) (sourceRegion destRegion : String) (tags : Tags)
  | log (msg : String)
deriving DecidableEq, Repr

/-- `SNAPSHOT_WAITER=10`: the fixed polling bound (module-level constant). -/
def SNAPSHOT_WAITER : Nat := 10

/-- The `for volume in volumes` loop body of `create_snapshots_from_vols`
(source lines 33-44).  The tag fetch (`describe_volumes`, line 34) sits
OUTSIDE the `try`, so its exception propagates; the `try` covers only the
`create_snapshot` request, whose exception is caught, turned into a message
bound to the local `exception_message`, and never emitted (the local is
dead).  A 200 response appends the snapshot id and prints a progress line;
a non-200 response does nothing at all. -/
def snapVols (c : Ec2Client) : List String → Except PyExc (List String) × List Event
  | [] => (Except.ok [], [])
  | volume :: rest =>
    match c.describeVolumeTags volume with
    | Except.error e => (Except.error e, [Event.describeVolumes volume])
    | Except.ok volume_tags =>
      match c.createSnapshot volume volume_tags with
      | Except.error _e =>
        -- Python builds `exception_message` here and discards it: no event.
        ((snapVols c rest).1,
         Event.describeVolumes volume :: Event.createSnapshot volume volume_tags ::
           (snapVols c rest).2)
      | Except.ok (status_code, snapshot_id) =>
        if status_code = 200 then
          (Except.map (fun l => snapshot_id :: l) (snapVols c rest).1,
           Event.describeVolumes volume :: Event.createSnapshot volume volume_tags ::
             Event.log ("Snapshot : " ++ snapshot_id ++ " created for volume " ++ volume) ::
               (snapVols c rest).2)
        else
          ((snapVols c rest).1,
           Event.describeVolumes volume :: Event.createSnapshot volume volume_tags ::
             (snapVols c rest).2)

/-- `create_snapshots_from_vols(volumes, ec2_client)` (source lines 27-45):
raises on an empty list before any provider call, otherwise prints the
header line and runs the per-volume loop. -/
def create_snapshots_from_vols (volumes : List String) (ec2_client : Ec2Client) :
    Except PyExc (List String) × List Event :=
  if volumes.length < 1 then
    (Except.error (PyExc.other
      "ERROR: No snapshots in destination region that match defined tags."), [])
  else
    ((snapVols ec2_client volumes).1,
     Event.log (toString volumes.length ++ " volumes will be snapped!") ::
       (snapVols ec2_client volumes).2)

/-- The `for snapshot in snapshots` loop body of
`copy_snapshot_to_dest_region` (source lines 49-65).  The wait phase
catches only `WaiterError`, prints an error line and re-raises; the copy
phase catches only `ClientError`, prints an error line and returns early
(`return`), skipping every later snapshot.  Any other exception
propagates. -/
def copySnaps (source_client dest_client : Ec2Client) (source_region dest_region : String) :
    List String → Except PyExc Unit × List Event
  | [] => (Except.ok (), [])
  | snapshot :: rest =>
    let waitEvents := [Event.log ("Waiting for " ++ snapshot ++ " to become available."),
                       Event.wait snapshot SNAPSHOT_WAITER]
    match source_client.waitSnapshot snapshot SNAPSHOT_WAITER with
    | Except.error (PyExc.waiterError m) =>
      (Except.error (PyExc.waiterError m),
       waitEvents ++ [Event.log ("ERROR: " ++ snapshot ++ " is not available to copy.")])
    | Except.error e => (Except.error e, waitEvents)
    | Except.ok _ =>
      match source_client.describeSnapshotTags snapshot with
      | Except.error (PyExc.clientError m) =>
        (Except.ok (),
         waitEvents ++ [Event.describeSnapshots snapshot,
           Event.log ("ERROR: failed to make copy of " ++ snapshot ++ " OUTPUT: " ++ m)])
      | Except.error e => (Except.error e, waitEvents ++ [Event.describeSnapshots snapshot])
      | Except.ok snapshot_tags =>
        match dest_client.copySnapshot snapshot source_region dest_region snapshot_tags with
        | Except.error (PyExc.clientError m) =>
          (Except.ok (),
           waitEvents ++ [Event.describeSnapshots snapshot,
             Event.copySnapshot snapshot source_region dest_region snapshot_tags,
             Event.log ("ERROR: failed to make copy of " ++ snapshot ++ " OUTPUT: " ++ m)])
        | Except.error e =>
          (Except.error e,
           waitEvents ++ [Event.describeSnapshots snapshot,
             Event.copySnapshot snapshot source_region dest_region snapshot_tags])
        | Except.ok new_snapshot =>
          ((copySnaps source_client dest_client source_region dest_region rest).1,
           waitEvents ++ [Event.describeSnapshots snapshot,
             Event.copySnapshot snapshot source_region dest_region snapshot_tags,
             Event.log ("Created " ++ new_snapshot ++ " copy in " ++ dest_region ++
               " from source " ++ snapshot ++ " in " ++ source_region)] ++
             (copySnaps source_client dest_client source_region dest_region rest).2)

/-- `copy_snapshot_to_dest_region(snapshots, source_client, dest_client,
source_region, dest_region)` (source lines 47-65): prints the count line
then runs the per-snapshot loop. -/
def copy_snapshot_to_dest_region (snapshots : List String)
    (source_client dest_client : Ec2Client) (source_region dest_region : String) :
    Except PyExc Unit × List Event :=
  ((copySnaps source_client dest_client source_region dest_region snapshots).1,
   Event.log ("Found " ++ toString snapshots.length ++ " snapshots to copy from " ++
       source_region ++ " to " ++ dest_region) ::
     (copySnaps source_client dest_client source_region dest_region snapshots).2)

/-- `main(file, source_region, dest_region)` (source lines 67-76), after the
input file has been decoded to the volume list and the clients constructed:
runs the creation phase, then the replication phase only when `dest_region`
is non-empty (absent on the command line means `""` via the argparse
default). -/
def main (volumes : List String) (source_client dest_client : Ec2Client)
    (source_region dest_region : String) : Except PyExc Unit × List Event :=
  match (create_snapshots_from_vols volumes source_client).1 with
  | Except.error e => (Except.error e, (create_snapshots_from_vols volumes source_client).2)
  | Except.ok snapshots =>
    if dest_region ≠ "" then
      ((copy_snapshot_to_dest_region snapshots source_client dest_client
          source_region dest_region).1,
       (create_snapshots_from_vols volumes source_client).2 ++
         (copy_snapshot_to_dest_region snapshots source_client dest_client
           source_region dest_region).2)
    else (Except.ok (), (create_snapshots_from_vols volumes source_client).2)

/-! ## Specification-side helper functions -/

/-- The per-volume outcome the loop appends on success: a snapshot id when
the tag fetch succeeds, the create request succeeds, and the HTTP status
is 200; `none` otherwise. -/
def successSnap (c : Ec2Client) (volume : String) : Option String :=
  match c.describeVolumeTags volume with
  | Except.error _ => none
  | Except.ok tags =>
    match c.createSnapshot volume tags with
    | Except.error _ => none
    | Except.ok (status_code, snapshot_id) =>
      if status_code = 200 then some snapshot_id else none

/-- The snapshots targeted by `copySnapshot` requests in a trace, in order. -/
def copyTargets : List Event → List String
  | [] => []
  | Event.copySnapshot s _ _ _ :: rest => s :: copyTargets rest
  | _ :: rest => copyTargets rest

/-- The snapshots targeted by waiter polls in a trace, in order. -/
def waitTargets : List Event → List String
  | [] => []
  | Event.wait s _ :: rest => s :: waitTargets rest
  | _ :: rest => waitTargets rest

/-- The printed status lines of a trace, in order. -/
def logsOf : List Event → List String
  | [] => []
  | Event.log m :: rest => m :: logsOf rest
  | _ :: rest => logsOf rest

/-- A snapshot for which the whole wait-and-copy step succeeds on the given
pair of clients: the waiter reports completion, the tag fetch succeeds, and
the copy request is accepted. -/
def okCopy (source_client dest_client : Ec2Client) (source_region dest_region : String)
    (s : String) : Prop :=
  source_client.waitSnapshot s SNAPSHOT_WAITER = Except.ok () ∧
  ∃ t, source_client.describeSnapshotTags s = Except.ok t ∧
    ∃ sid, dest_client.copySnapshot s source_region dest_region t = Except.ok sid

/-! ## Concrete clients for witnesses and counterexamples -/

/-- A client on which every operation succeeds. -/
def okClient : Ec2Client where
  describeVolumeTags := fun v => Except.ok [("Name", v)]
  createSnapshot := fun v _ => Except.ok (200, "snap-" ++ v)
  waitSnapshot := fun _ _ => Except.ok ()
  describeSnapshotTags := fun s => Except.ok [("Name", s)]
  copySnapshot := fun s _ _ _ => Except.ok ("copy-" ++ s)

/-- A client whose tag fetch (`describe_volumes`) raises on volume `"b"`
and succeeds elsewhere; snapshot creation always succeeds. -/
def tagFailClient : Ec2Client where
  describeVolumeTags := fun v =>
    if v = "b" then Except.error (PyExc.clientError "UnauthorizedOperation")
    else Except.ok [("Name", v)]
  createSnapshot := fun v _ => Except.ok (200, "snap-" ++ v)
  waitSnapshot := fun _ _ => Except.ok ()
  describeSnapshotTags := fun s => Except.ok [("Name", s)]
  copySnapshot := fun s _ _ _ => Except.ok ("copy-" ++ s)

/-- A client whose `create_snapshot` request always raises. -/
def createFailClient : Ec2Client where
  describeVolumeTags := fun v => Except.ok [("Name", v)]
  createSnapshot := fun _ _ => Except.error (PyExc.clientError "RequestLimitExceeded")
  waitSnapshot := fun _ _ => Except.ok ()
  describeSnapshotTags := fun s => Except.ok [("Name", s)]
  copySnapshot := fun s _ _ _ => Except.ok ("copy-" ++ s)

/-- A client whose `create_snapshot` request raises on volume `"b"` and
succeeds elsewhere; tag fetches always succeed. -/
def createFailBClient : Ec2Client where
  describeVolumeTags := fun v => Except.ok [("Name", v)]
  createSnapshot := fun v _ =>
    if v = "b" then Except.error (PyExc.clientError "InternalError")
    else Except.ok (200, "snap-" ++ v)
  waitSnapshot := fun _ _ => Except.ok ()
  describeSnapshotTags := fun s => Except.ok [("Name", s)]
  copySnapshot := fun s _ _ _ => Except.ok ("copy-" ++ s)

/-- A client whose `create_snapshot` returns HTTP 500 (no exception) on
volume `"b"` and succeeds with 200 elsewhere. -/
def status500Client : Ec2Client where
  describeVolumeTags := fun v => Except.ok [("Name", v)]
  createSnapshot := fun v _ =>
    if v = "b" then Except.ok (500, "snap-" ++ v) else Except.ok (200, "snap-" ++ v)
  waitSnapshot := fun _ _ => Except.ok ()
  describeSnapshotTags := fun s => Except.ok [("Name", s)]
  copySnapshot := fun s _ _ _ => Except.ok ("copy-" ++ s)

/-- A client whose waiter times out on snapshot `"s2"` (WaiterError) and
succeeds elsewhere. -/
def waitFailClient : Ec2Client where
  describeVolumeTags := fun v => Except.ok [("Name", v)]
  createSnapshot := fun v _ => Except.ok (200, "snap-" ++ v)
  waitSnapshot := fun s _ =>
    if s = "s2" then Except.error (PyExc.waiterError "Waiter SnapshotCompleted failed: Max attempts exceeded")
    else Except.ok ()
  describeSnapshotTags := fun s => Except.ok [("Name", s)]
  copySnapshot := fun s _ _ _ => Except.ok ("copy-" ++ s)

/-- A destination client whose `copy_snapshot` request is rejected
(ClientError) for snapshot `"s2"` and succeeds elsewhere. -/
def copyFailClient : Ec2Client where
  describeVolumeTags := fun v => Except.ok [("Name", v)]
  createSnapshot := fun v _ => Except.ok (200, "snap-" ++ v)
  waitSnapshot := fun _ _ => Except.ok ()
  describeSnapshotTags := fun s => Except.ok [("Name", s)]
  copySnapshot := fun s _ _ _ =>
    if s = "s2" then Except.error (PyExc.clientError "InvalidSnapshot.NotFound")
    else Except.ok ("copy-" ++ s)

end BotoSnapshots

namespace BotoSnapshots

/-! ## Helper lemmas -/

theorem copyTargets_append (a b : List Event) :
    copyTargets (a ++ b) = copyTargets a ++ copyTargets b := by
  induction a with
  | nil => rfl
  | cons e rest ih => cases e <;> simp [copyTargets, ih]

theorem waitTargets_append (a b : List Event) :
    waitTargets (a ++ b) = waitTargets a ++ waitTargets b := by
  induction a with
  | nil => rfl
  | cons e rest ih => cases e <;> simp [waitTargets, ih]

theorem logsOf_append (a b : List Event) :
    logsOf (a ++ b) = logsOf a ++ logsOf b := by
  induction a with
  | nil => rfl
  | cons e rest ih => cases e <;> simp [logsOf, ih]

/-- The creation loop issues no waiter polls and no copy requests. -/
theorem snapVols_no_wait_no_copy (c : Ec2Client) (volumes : List String) :
    waitTargets (snapVols c volumes).2 = [] ∧ copyTargets (snapVols c volumes).2 = [] := by
  induction volumes with
  | nil => exact ⟨rfl, rfl⟩
  | cons volume rest ih =>
    simp only [snapVols]
    split
    · exact ⟨rfl, rfl⟩
    · split
      · simpa [waitTargets, copyTargets] using ih
      · split <;> simpa [waitTargets, copyTargets] using ih

/-- When the creation loop returns normally, the returned list is exactly
the in-order sequence of per-volume successes. -/
theorem snapVols_ok_char (c : Ec2Client) (volumes : List String) :
    ∀ snaps, (snapVols c volumes).1 = Except.ok snaps →
      snaps = volumes.filterMap (successSnap c) := by
  induction volumes with
  | nil =>
    intro snaps h
    simp only [snapVols] at h
    cases h
    rfl
  | cons volume rest ih =>
    intro snaps h
    simp only [snapVols] at h
    split at h
    · cases h
    · rename_i volume_tags hdv
      split at h
      · rename_i e hcs
        simp only at h
        simp [List.filterMap_cons, successSnap, hdv, hcs, ih snaps h]
      · rename_i status_code snapshot_id hcs
        split at h
        · rename_i h200
          cases hrec : (snapVols c rest).1 with
          | error e => rw [hrec] at h; cases h
          | ok l =>
            rw [hrec] at h
            cases h
            simp [List.filterMap_cons, successSnap, hdv, hcs, h200, ih l hrec]
        · rename_i h200
          simp only at h
          simp [List.filterMap_cons, successSnap, hdv, hcs, h200, ih snaps h]

/-- When every tag fetch succeeds, the creation loop returns normally with
exactly the in-order sequence of per-volume successes. -/
theorem snapVols_all_tags_ok (c : Ec2Client) (volumes : List String)
    (h : ∀ v ∈ volumes, ∃ t, c.describeVolumeTags v = Except.ok t) :
    (snapVols c volumes).1 = Except.ok (volumes.filterMap (successSnap c)) := by
  induction volumes with
  | nil => rfl
  | cons volume rest ih =>
    obtain ⟨t, ht⟩ := h volume (by simp)
    have hrest := ih (fun v hv => h v (by simp [hv]))
    simp only [snapVols]
    split
    · rename_i e heq
      rw [heq] at ht
      cases ht
    · rename_i volume_tags heq
      rw [heq] at ht
      injection ht with ht'
      subst ht'
      split
      · rename_i e hcs
        simp [List.filterMap_cons, successSnap, heq, hcs, hrest]
      · rename_i status_code snapshot_id hcs
        split
        · rename_i h200
          simp [List.filterMap_cons, successSnap, heq, hcs, h200, hrest, Except.map]
        · rename_i h200
          simp [List.filterMap_cons, successSnap, heq, hcs, h200, hrest]

/-- A `createSnapshot` request in the creation loop's trace always carries
exactly the tag set fetched from its volume. -/
theorem snapVols_create_tags (c : Ec2Client) (volumes : List String) :
    ∀ v t, Event.createSnapshot v t ∈ (snapVols c volumes).2 →
      c.describeVolumeTags v = Except.ok t := by
  induction volumes with
  | nil => intro v t h; simp [snapVols] at h
  | cons volume rest ih =>
    intro v t h
    simp only [snapVols] at h
    split at h
    · simp at h
    · rename_i volume_tags hdv
      split at h
      · rename_i e hcs
        simp only [List.mem_cons] at h
        rcases h with h | h | h
        · cases h
        · injection h with h1 h2
          subst h1; subst h2
          exact hdv
        · exact ih v t h
      · rename_i status_code snapshot_id hcs
        split at h
        · simp only [List.mem_cons] at h
          rcases h with h | h | h | h
          · cases h
          · injection h with h1 h2
            subst h1; subst h2
            exact hdv
          · cases h
          · exact ih v t h
        · simp only [List.mem_cons] at h
          rcases h with h | h | h
          · cases h
          · injection h with h1 h2
            subst h1; subst h2
            exact hdv
          · exact ih v t h

/-- A `copySnapshot` request in the replication loop's trace always carries
exactly the tag set fetched from its source snapshot. -/
theorem copySnaps_copy_tags (source_client dest_client : Ec2Client)
    (source_region dest_region : String) (snapshots : List String) :
    ∀ s r1 r2 t, Event.copySnapshot s r1 r2 t ∈
        (copySnaps source_client dest_client source_region dest_region snapshots).2 →
      source_client.describeSnapshotTags s = Except.ok t := by
  induction snapshots with
  | nil => intro s r1 r2 t h; simp [copySnaps] at h
  | cons snapshot rest ih =>
    intro s r1 r2 t h
    simp only [copySnaps] at h
    split at h
    · simp at h
    · simp at h
    · split at h
      · simp at h
      · simp at h
      · rename_i snapshot_tags hd
        split at h
        · simp at h
          obtain ⟨rfl, -, -, rfl⟩ := h
          exact hd
        · simp at h
          obtain ⟨rfl, -, -, rfl⟩ := h
          exact hd
        · simp at h
          rcases h with ⟨rfl, -, -, rfl⟩ | h
          · exact hd
          · exact ih s r1 r2 t h

/-- Processing a fully successful block of snapshots at the head of the
replication loop only adds that block's events in front: it waits on and
copies exactly the block, then continues with the remaining snapshots. -/
theorem copySnaps_prefix (source_client dest_client : Ec2Client)
    (source_region dest_region : String) (rest : List String) :
    ∀ pre, (∀ x ∈ pre, okCopy source_client dest_client source_region dest_region x) →
      ∃ tr0, copySnaps source_client dest_client source_region dest_region (pre ++ rest) =
          ((copySnaps source_client dest_client source_region dest_region rest).1,
           tr0 ++ (copySnaps source_client dest_client source_region dest_region rest).2) ∧
        copyTargets tr0 = pre ∧ waitTargets tr0 = pre := by
  intro pre
  induction pre with
  | nil => intro _; exact ⟨[], by simp, rfl, rfl⟩
  | cons p pre' ih =>
    intro hp
    obtain ⟨hw, t, hd, sid, hc⟩ := hp p (by simp)
    obtain ⟨tr0', heq', hcopy', hwait'⟩ := ih (fun x hx => hp x (by simp [hx]))
    refine ⟨[Event.log ("Waiting for " ++ p ++ " to become available."),
             Event.wait p SNAPSHOT_WAITER,
             Event.describeSnapshots p,
             Event.copySnapshot p source_region dest_region t,
             Event.log ("Created " ++ sid ++ " copy in " ++ dest_region ++
               " from source " ++ p ++ " in " ++ source_region)] ++ tr0', ?_, ?_, ?_⟩
    · simp only [List.cons_append, copySnaps, hw, hd, hc, List.append_eq]
      rw [heq']
      simp
    · simp [copyTargets_append, copyTargets, hcopy']
    · simp [waitTargets_append, waitTargets, hwait']

/-- A volume whose create-snapshot request comes back with a non-200 status
code (and no exception) changes neither the returned list nor the printed
status lines: the loop behaves as if the volume were absent, beyond issuing
its two provider requests. -/
theorem snapVols_skip (c : Ec2Client) (v : String) (tags : Tags)
    (status_code : Nat) (snapshot_id : String)
    (h1 : c.describeVolumeTags v = Except.ok tags)
    (h2 : c.createSnapshot v tags = Except.ok (status_code, snapshot_id))
    (h3 : status_code ≠ 200) :
    ∀ pre post,
      (snapVols c (pre ++ v :: post)).1 = (snapVols c (pre ++ post)).1 ∧
      logsOf (snapVols c (pre ++ v :: post)).2 = logsOf (snapVols c (pre ++ post)).2 := by
  intro pre
  induction pre with
  | nil =>
    intro post
    simp [snapVols, h1, h2, h3, logsOf]
  | cons p pre' ih =>
    intro post
    have ihp := ih post
    simp only [List.cons_append, snapVols]
    split
    · exact ⟨rfl, rfl⟩
    · split
      · simpa [logsOf] using ihp
      · split
        · simp [logsOf, ihp.1, ihp.2]
        · simpa [logsOf] using ihp

/-! ## Claim theorems -/

/-- **C6.** For the empty volume list, `create_snapshots_from_vols` raises
its empty-input exception immediately: the result is the error and the
event trace is empty — no tag fetch, no snapshot-creation request, not
even the header print happens first. -/
theorem C6_empty_input (c : Ec2Client) :
    create_snapshots_from_vols [] c =
      (Except.error (PyExc.other
        "ERROR: No snapshots in destination region that match defined tags."), []) := by
  rfl

/-- **C9.** For the empty snapshot list, `copy_snapshot_to_dest_region`
returns normally and its whole trace is the single status line reporting a
count of zero: no wait and no copy provider call is issued. -/
theorem C9_empty_replicate (sc dc : Ec2Client) (source_region dest_region : String) :
    copy_snapshot_to_dest_region [] sc dc source_region dest_region =
      (Except.ok (), [Event.log ("Found 0 snapshots to copy from " ++
        source_region ++ " to " ++ dest_region)]) := by
  rfl

/-- **C1 counterexample.** The claim as stated is false: a tag-fetch
failure is NOT recovered locally.  With a client whose tag fetch raises on
volume `"b"` while creation succeeds for `"a"` and `"c"`,
`create_snapshots_from_vols` propagates the exception to the caller instead
of returning the SnapshotRefs of the volumes that succeeded. -/
theorem C1_counterexample :
    (create_snapshots_from_vols ["a", "b", "c"] tagFailClient).1 =
        Except.error (PyExc.clientError "UnauthorizedOperation") ∧
    (create_snapshots_from_vols ["a", "b", "c"] tagFailClient).1 ≠
        Except.ok ["snap-a", "snap-c"] := by
  exact ⟨by decide, by decide⟩

/-- **C1 (amended).** For every non-empty volume list, a failure of the
snapshot-creation request is recovered locally inside
`create_snapshots_from_vols`: processing continues with the next volume,
the failure is not propagated to the caller, and the result contains the
SnapshotRefs of all volumes that succeeded, in original order — PROVIDED
every tag fetch succeeds; a tag-fetch failure, by contrast, propagates to
the caller and aborts the batch (see the counterexample). -/
theorem C1_create_failures_isolated (c : Ec2Client) (volumes : List String)
    (hne : volumes ≠ [])
    (htags : ∀ v ∈ volumes, ∃ t, c.describeVolumeTags v = Except.ok t) :
    (create_snapshots_from_vols volumes c).1 =
      Except.ok (volumes.filterMap (successSnap c)) := by
  have hlen : ¬ volumes.length < 1 := by
    cases volumes with
    | nil => exact absurd rfl hne
    | cons v rest => simp
  rw [create_snapshots_from_vols, if_neg hlen]
  exact snapVols_all_tags_ok c volumes htags

/-- Witness for C1: volume `"b"` fails creation, `"a"` and `"c"` succeed;
the batch survives and returns exactly their snapshots, in order. -/
theorem C1_witness :
    (create_snapshots_from_vols ["a", "b", "c"] createFailBClient).1 =
      Except.ok ["snap-a", "snap-c"] := by
  have h := C1_create_failures_isolated createFailBClient ["a", "b", "c"]
    (by decide) (fun v _ => ⟨[("Name", v)], rfl⟩)
  rw [h]
  decide

/-- **C2.** If every snapshot before `s` in the list waits and copies
successfully but `s` never becomes available within the fixed polling bound
of `SNAPSHOT_WAITER = 10` attempts (the waiter raises `WaiterError`), then
`copy_snapshot_to_dest_region` propagates that error to the caller, the
only copy requests issued are those for the snapshots before `s`, the only
waits issued are those for the snapshots before `s` and for `s` itself, and
the wait on `s` used the bound 10. -/
theorem C2_wait_timeout_aborts (source_client dest_client : Ec2Client)
    (source_region dest_region : String) (pre post : List String) (s m : String)
    (hpre : ∀ x ∈ pre, okCopy source_client dest_client source_region dest_region x)
    (hs : source_client.waitSnapshot s SNAPSHOT_WAITER =
      Except.error (PyExc.waiterError m)) :
    (copy_snapshot_to_dest_region (pre ++ s :: post) source_client dest_client
        source_region dest_region).1 = Except.error (PyExc.waiterError m) ∧
    copyTargets (copy_snapshot_to_dest_region (pre ++ s :: post) source_client dest_client
        source_region dest_region).2 = pre ∧
    waitTargets (copy_snapshot_to_dest_region (pre ++ s :: post) source_client dest_client
        source_region dest_region).2 = pre ++ [s] ∧
    Event.wait s 10 ∈ (copy_snapshot_to_dest_region (pre ++ s :: post) source_client
        dest_client source_region dest_region).2 := by
  obtain ⟨tr0, heq, hcopy, hwait⟩ := copySnaps_prefix source_client dest_client
    source_region dest_region (s :: post) pre hpre
  have hstep : copySnaps source_client dest_client source_region dest_region (s :: post) =
      (Except.error (PyExc.waiterError m),
       [Event.log ("Waiting for " ++ s ++ " to become available."),
        Event.wait s SNAPSHOT_WAITER,
        Event.log ("ERROR: " ++ s ++ " is not available to copy.")]) := by
    simp [copySnaps, hs]
  refine ⟨?_, ?_, ?_, ?_⟩
  · simp [copy_snapshot_to_dest_region, heq, hstep]
  · simp [copy_snapshot_to_dest_region, heq, hstep, copyTargets, copyTargets_append, hcopy]
  · simp [copy_snapshot_to_dest_region, heq, hstep, waitTargets, waitTargets_append, hwait,
      SNAPSHOT_WAITER]
  · simp [copy_snapshot_to_dest_region, heq, hstep, SNAPSHOT_WAITER]

/-- Witness for C2: `"s1"` copies fine, the waiter times out on `"s2"`,
`"s3"` follows it; the call raises and only `"s1"` was copied. -/
theorem C2_witness :
    (copy_snapshot_to_dest_region ["s1", "s2", "s3"] waitFailClient okClient
        "us-west-2" "us-east-1").1 =
      Except.error (PyExc.waiterError
        "Waiter SnapshotCompleted failed: Max attempts exceeded") ∧
    copyTargets (copy_snapshot_to_dest_region ["s1", "s2", "s3"] waitFailClient okClient
        "us-west-2" "us-east-1").2 = ["s1"] := by
  have h := C2_wait_timeout_aborts waitFailClient okClient "us-west-2" "us-east-1"
    ["s1"] ["s3"] "s2" "Waiter SnapshotCompleted failed: Max attempts exceeded"
    (by
      intro x hx
      simp only [List.mem_singleton] at hx
      subst hx
      exact ⟨by decide, [("Name", "s1")], by decide, "copy-s1", by decide⟩)
    (by decide)
  exact ⟨h.1, h.2.1⟩

/-- **C3.** If every snapshot before `s` waits and copies successfully, `s`
becomes available and its tags are fetched, but the provider rejects the
copy request for `s` (a `ClientError` carrying detail `m`), then
`copy_snapshot_to_dest_region` prints the `SnapshotCopyError` status line
naming `s` and `m`, returns normally (early return, no exception), and the
snapshots waited on and copy-requested are exactly those before `s` plus
`s` itself: nothing after `s` is waited on or copied. -/
theorem C3_copy_rejected_early_return (source_client dest_client : Ec2Client)
    (source_region dest_region : String) (pre post : List String) (s m : String)
    (t : Tags)
    (hpre : ∀ x ∈ pre, okCopy source_client dest_client source_region dest_region x)
    (hw : source_client.waitSnapshot s SNAPSHOT_WAITER = Except.ok ())
    (hd : source_client.describeSnapshotTags s = Except.ok t)
    (hc : dest_client.copySnapshot s source_region dest_region t =
      Except.error (PyExc.clientError m)) :
    (copy_snapshot_to_dest_region (pre ++ s :: post) source_client dest_client
        source_region dest_region).1 = Except.ok () ∧
    Event.log ("ERROR: failed to make copy of " ++ s ++ " OUTPUT: " ++ m) ∈
      (copy_snapshot_to_dest_region (pre ++ s :: post) source_client dest_client
        source_region dest_region).2 ∧
    copyTargets (copy_snapshot_to_dest_region (pre ++ s :: post) source_client dest_client
        source_region dest_region).2 = pre ++ [s] ∧
    waitTargets (copy_snapshot_to_dest_region (pre ++ s :: post) source_client dest_client
        source_region dest_region).2 = pre ++ [s] := by
  obtain ⟨tr0, heq, hcopy, hwait⟩ := copySnaps_prefix source_client dest_client
    source_region dest_region (s :: post) pre hpre
  have hstep : copySnaps source_client dest_client source_region dest_region (s :: post) =
      (Except.ok (),
       [Event.log ("Waiting for " ++ s ++ " to become available."),
        Event.wait s SNAPSHOT_WAITER,
        Event.describeSnapshots s,
        Event.copySnapshot s source_region dest_region t,
        Event.log ("ERROR: failed to make copy of " ++ s ++ " OUTPUT: " ++ m)]) := by
    simp [copySnaps, hw, hd, hc]
  refine ⟨?_, ?_, ?_, ?_⟩
  · simp [copy_snapshot_to_dest_region, heq, hstep]
  · simp [copy_snapshot_to_dest_region, heq, hstep]
  · simp [copy_snapshot_to_dest_region, heq, hstep, copyTargets, copyTargets_append, hcopy]
  · simp [copy_snapshot_to_dest_region, heq, hstep, waitTargets, waitTargets_append, hwait]

/-- Witness for C3: `"s1"` copies fine, the provider rejects the copy of
`"s2"`, `"s3"` follows; the call returns normally, prints the error line,
and only `"s1"` and `"s2"` were ever waited on or copy-requested. -/
theorem C3_witness :
    (copy_snapshot_to_dest_region ["s1", "s2", "s3"] okClient copyFailClient
        "us-west-2" "us-east-1").1 = Except.ok () ∧
    copyTargets (copy_snapshot_to_dest_region ["s1", "s2", "s3"] okClient copyFailClient
        "us-west-2" "us-east-1").2 = ["s1", "s2"] := by
  have h := C3_copy_rejected_early_return okClient copyFailClient "us-west-2" "us-east-1"
    ["s1"] ["s3"] "s2" "InvalidSnapshot.NotFound" [("Name", "s2")]
    (by
      intro x hx
      simp only [List.mem_singleton] at hx
      subst hx
      exact ⟨by decide, [("Name", "s1")], by decide, "copy-s1", by decide⟩)
    (by decide) (by decide) (by decide)
  exact ⟨h.1, h.2.2.1⟩

/-- **C4.** Tags pass through verbatim at both hops: every `createSnapshot`
request in a `create_snapshots_from_vols` run carries exactly the tag set
fetched from its source volume, and every `copySnapshot` request in a
`copy_snapshot_to_dest_region` run carries exactly the tag set fetched from
its source snapshot. -/
theorem C4_tags_verbatim (c source_client dest_client : Ec2Client)
    (volumes snapshots : List String) (source_region dest_region : String) :
    (∀ v t, Event.createSnapshot v t ∈ (create_snapshots_from_vols volumes c).2 →
       c.describeVolumeTags v = Except.ok t) ∧
    (∀ s r1 r2 t, Event.copySnapshot s r1 r2 t ∈
        (copy_snapshot_to_dest_region snapshots source_client dest_client
          source_region dest_region).2 →
       source_client.describeSnapshotTags s = Except.ok t) := by
  constructor
  · intro v t h
    have hmem : Event.createSnapshot v t ∈ (snapVols c volumes).2 := by
      rw [create_snapshots_from_vols] at h
      split at h
      · simp at h
      · simp only [List.mem_cons] at h
        rcases h with h | h
        · cases h
        · exact h
    exact snapVols_create_tags c volumes v t hmem
  · intro s r1 r2 t h
    have hmem : Event.copySnapshot s r1 r2 t ∈
        (copySnaps source_client dest_client source_region dest_region snapshots).2 := by
      rw [copy_snapshot_to_dest_region] at h
      simp only [List.mem_cons] at h
      rcases h with h | h
      · cases h
      · exact h
    exact copySnaps_copy_tags source_client dest_client source_region dest_region
      snapshots s r1 r2 t hmem

/-- Witness for C4: on a concrete run, the tag set of the issued create
request equals the fetched volume tag set, and likewise for the copy
request. -/
theorem C4_witness :
    okClient.describeVolumeTags "a" = Except.ok [("Name", "a")] ∧
    okClient.describeSnapshotTags "s1" = Except.ok [("Name", "s1")] := by
  have h := C4_tags_verbatim okClient okClient okClient ["a"] ["s1"]
    "us-west-2" "us-east-1"
  exact ⟨h.1 "a" [("Name", "a")] (by decide),
         h.2 "s1" "us-west-2" "us-east-1" [("Name", "s1")] (by decide)⟩

/-- **C5.** Whenever `create_snapshots_from_vols` returns a list, that list
is no longer than the input, every entry is the snapshot created for some
input volume, and the list equals the in-order sequence of per-volume
successes (failed volumes contribute no entry). -/
theorem C5_output_characterization (c : Ec2Client) (volumes : List String)
    (snaps : List String)
    (h : (create_snapshots_from_vols volumes c).1 = Except.ok snaps) :
    snaps.length ≤ volumes.length ∧
    (∀ sid ∈ snaps, ∃ v ∈ volumes, successSnap c v = some sid) ∧
    snaps = volumes.filterMap (successSnap c) := by
  have hsnap : (snapVols c volumes).1 = Except.ok snaps := by
    rw [create_snapshots_from_vols] at h
    split at h
    · cases h
    · exact h
  have hchar := snapVols_ok_char c volumes snaps hsnap
  subst hchar
  refine ⟨List.length_filterMap_le _ _, ?_, rfl⟩
  intro sid hsid
  rw [List.mem_filterMap] at hsid
  exact hsid

/-- Witness for C5: a two-volume run on the all-success client returns
exactly the per-volume successes, in order. -/
theorem C5_witness :
    (["snap-a", "snap-b"] : List String) =
      (["a", "b"] : List String).filterMap (successSnap okClient) :=
  (C5_output_characterization okClient ["a", "b"] ["snap-a", "snap-b"] (by decide)).2.2

/-- **C7 (code evaluated at the failing input).** When the create-snapshot
request for volume `"vol-1"` raises, the loop swallows the exception: the
run returns `[]` with the full trace holding only the header line, the tag
fetch and the failed create request — no status line reporting the error is
ever printed (the Python code builds `exception_message` into a local
variable and discards it), contradicting the claim that the failure is
reported at the user-visible boundary. -/
theorem C7_error_swallowed :
    (create_snapshots_from_vols ["vol-1"] createFailClient).1 = Except.ok [] ∧
    (create_snapshots_from_vols ["vol-1"] createFailClient).2 =
      [Event.log "1 volumes will be snapped!",
       Event.describeVolumes "vol-1",
       Event.createSnapshot "vol-1" [("Name", "vol-1")]] ∧
    logsOf (create_snapshots_from_vols ["vol-1"] createFailClient).2 =
      ["1 volumes will be snapped!"] := by
  refine ⟨by decide, by decide, by decide⟩

/-- **C8.** With `dest_region` empty (the argparse default when the option
is absent), `main` never enters the replication phase: its event trace is
exactly the creation phase's trace, which contains no waiter poll and no
copy request. -/
theorem C8_no_dest_region_no_replication (volumes : List String)
    (source_client dest_client : Ec2Client) (source_region : String) :
    (main volumes source_client dest_client source_region "").2 =
        (create_snapshots_from_vols volumes source_client).2 ∧
    waitTargets (main volumes source_client dest_client source_region "").2 = [] ∧
    copyTargets (main volumes source_client dest_client source_region "").2 = [] := by
  have htr : (main volumes source_client dest_client source_region "").2 =
      (create_snapshots_from_vols volumes source_client).2 := by
    rw [main]
    split
    · rfl
    · simp
  have hct : waitTargets (create_snapshots_from_vols volumes source_client).2 = [] ∧
      copyTargets (create_snapshots_from_vols volumes source_client).2 = [] := by
    rw [create_snapshots_from_vols]
    split
    · exact ⟨rfl, rfl⟩
    · simpa [waitTargets, copyTargets] using
        snapVols_no_wait_no_copy source_client volumes
  refine ⟨htr, ?_, ?_⟩ <;> rw [htr]
  exacts [hct.1, hct.2]

/-- **C10.** A volume whose create-snapshot request comes back with a
non-200 HTTP status (and no exception) contributes nothing to the success
list and nothing to the printed status lines — the creation loop behaves,
in result and in output, exactly as if the volume were absent. -/
theorem C10_non200_silently_ignored (c : Ec2Client) (pre post : List String)
    (v : String) (tags : Tags) (status_code : Nat) (snapshot_id : String)
    (h1 : c.describeVolumeTags v = Except.ok tags)
    (h2 : c.createSnapshot v tags = Except.ok (status_code, snapshot_id))
    (h3 : status_code ≠ 200) :
    (snapVols c (pre ++ v :: post)).1 = (snapVols c (pre ++ post)).1 ∧
    logsOf (snapVols c (pre ++ v :: post)).2 = logsOf (snapVols c (pre ++ post)).2 ∧
    (create_snapshots_from_vols (pre ++ v :: post) c).1 =
      (snapVols c (pre ++ v :: post)).1 := by
  have h := snapVols_skip c v tags status_code snapshot_id h1 h2 h3 pre post
  refine ⟨h.1, h.2, ?_⟩
  have hne : ¬ (pre ++ v :: post).length < 1 := by
    simp [List.length_append, Nat.lt_one_iff]
  rw [create_snapshots_from_vols, if_neg hne]

/-- Witness for C10: volume `"b"` gets a 500 response; the run's result and
printed lines coincide with those of the run without `"b"`. -/
theorem C10_witness :
    (snapVols status500Client ["a", "b", "c"]).1 =
        (snapVols status500Client ["a", "c"]).1 ∧
    logsOf (snapVols status500Client ["a", "b", "c"]).2 =
        logsOf (snapVols status500Client ["a", "c"]).2 ∧
    (create_snapshots_from_vols ["a", "b", "c"] status500Client).1 =
      (snapVols status500Client ["a", "b", "c"]).1 :=
  C10_non200_silently_ignored status500Client ["a"] ["c"] "b" [("Name", "b")]
    500 "snap-b" (by decide) (by decide) (by decide)

end BotoSnapshots
